import Mathlib

/-!
Verification of the Heston stochastic-volatility process engine
(`ql/processes/hestonprocess.cpp`).

The engine advances a two-component state, an asset price and its
instantaneous variance, over a time step.  External collaborators (the two
yield curves supplying forward rates, the standard-normal CDF, the
non-central chi-squared quantile inversion, and the machine-epsilon
constant) are modelled as fields of an environment record; the scalar
model parameters are a record of reals.  Machine doubles are modelled as
real numbers; C++ division is modelled by Lean's total division on reals.
-/

noncomputable section

namespace HestonProcess

/-- External collaborators of the process, as the spec delimits them:
forward risk-free and dividend rates over an interval (continuous
compounding), the Gaussian CDF (`CumulativeNormalDistribution`), the
non-central chi-squared quantile inversion
(`InverseNonCentralChiSquareDistribution`, taking degrees of freedom,
non-centrality, a maximum-iteration budget, and a probability), and the
`QL_EPSILON` machine constant. -/
structure HestonEnv where
  riskFreeFwd : ℝ → ℝ → ℝ
  dividendFwd : ℝ → ℝ → ℝ
  normalCdf : ℝ → ℝ
  invNcChiSq : ℝ → ℝ → ℕ → ℝ → ℝ
  eps : ℝ

/-- The scalar model parameters fixed at construction
(`v0_, kappa_, theta_, sigma_, rho_`). -/
structure HestonParams where
  v0 : ℝ
  kappa : ℝ
  theta : ℝ
  sigma : ℝ
  rho : ℝ

/-- Modelled from the spec: the `Discretization` selector is declared in the
process header, which is not among the sources here; the spec fixes exactly
five values (a default Euler-style value, PartialTruncation, FullTruncation,
Reflection, ExactVariance).  As a C++ enumeration is an integer type and the
spec contemplates out-of-range selector values, the selector is embedded as a
natural number with the five defined values encoded as 0..4. -/
def Discretization.Euler : ℕ := 0

/-- Second defined selector value (see `Discretization.Euler`). -/
def Discretization.PartialTruncation : ℕ := 1

/-- Third defined selector value (see `Discretization.Euler`). -/
def Discretization.FullTruncation : ℕ := 2

/-- Fourth defined selector value (see `Discretization.Euler`). -/
def Discretization.Reflection : ℕ := 3

/-- Fifth defined selector value (see `Discretization.Euler`). -/
def Discretization.ExactVariance : ℕ := 4

/-- `HestonProcess::drift` (hestonprocess.cpp lines 57-70): the
instantaneous drift vector at time `t` and state `x = (price, variance)`. -/
def drift (env : HestonEnv) (par : HestonParams) (d : ℕ) (t : ℝ) (x : ℝ × ℝ) :
    ℝ × ℝ :=
  let vol : ℝ :=
    if x.2 > 0 then Real.sqrt x.2
    else if d = Discretization.Reflection then -Real.sqrt (-x.2) else 0
  (env.riskFreeFwd t t - env.dividendFwd t t - 0.5 * vol * vol,
   par.kappa *
     (par.theta -
       (if d = Discretization.PartialTruncation then x.2 else vol * vol)))

/-- `HestonProcess::apply` (hestonprocess.cpp lines 93-99): maps a raw
increment `(dlog-price, dvariance)` onto the current state. -/
def apply (x0 dx : ℝ × ℝ) : ℝ × ℝ :=
  (x0.1 * Real.exp dx.1, x0.2 + dx.2)

/-- Degrees of freedom `df = 4*theta_*kappa_/(sigma_*sigma_)` of the exact
variance transition law (hestonprocess.cpp line 161). -/
def chiDf (par : HestonParams) : ℝ :=
  4 * par.theta * par.kappa / (par.sigma * par.sigma)

/-- Non-centrality parameter
`ncp = 4*kappa_*exp(-kappa_*dt)/(sigma_*sigma_*(1-exp(-kappa_*dt)))*x0[1]`
(hestonprocess.cpp lines 162-163). -/
def chiNcp (par : HestonParams) (dt v : ℝ) : ℝ :=
  4 * par.kappa * Real.exp (-(par.kappa * dt)) /
      (par.sigma * par.sigma * (1 - Real.exp (-(par.kappa * dt)))) * v

/-- Scale factor `sigma_*sigma_*(1-exp(-kappa_*dt))/(4*kappa_)` applied to
the sampled chi-squared quantile (hestonprocess.cpp line 171). -/
def chiScale (par : HestonParams) (dt : ℝ) : ℝ :=
  par.sigma * par.sigma * (1 - Real.exp (-(par.kappa * dt))) / (4 * par.kappa)

/-- The clamp applied to the Gaussian probability before the quantile
inversion (hestonprocess.cpp lines 166-169): negative values go to `0`,
values at least `1` go to `1 - QL_EPSILON`. -/
def clampProb (eps q : ℝ) : ℝ :=
  if q < 0 then 0 else if q ≥ 1 then 1 - eps else q

/-- `HestonProcess::evolve` (hestonprocess.cpp lines 101-184): one step of
the configured discretization strategy.  The `switch` over the selector is
embedded as an if-chain whose final branch is the `QL_FAIL` default, so the
result is an `Except` carrying either the next state or the failure
message. -/
def evolve (env : HestonEnv) (par : HestonParams) (d : ℕ) (t0 : ℝ)
    (x0 : ℝ × ℝ) (dt : ℝ) (dw : ℝ × ℝ) : Except String (ℝ × ℝ) :=
  let sdt := Real.sqrt dt
  let sqrhov := Real.sqrt (1 - par.rho * par.rho)
  if d = Discretization.PartialTruncation then
    let vol : ℝ := if x0.2 > 0 then Real.sqrt x0.2 else 0
    let vol2 := par.sigma * vol
    let mu := env.riskFreeFwd t0 (t0 + dt) - env.dividendFwd t0 (t0 + dt) -
      0.5 * vol * vol
    let nu := par.kappa * (par.theta - x0.2)
    Except.ok
      (x0.1 * Real.exp (mu * dt + vol * dw.1 * sdt),
       x0.2 + nu * dt + vol2 * sdt * (par.rho * dw.1 + sqrhov * dw.2))
  else if d = Discretization.FullTruncation then
    let vol : ℝ := if x0.2 > 0 then Real.sqrt x0.2 else 0
    let vol2 := par.sigma * vol
    let mu := env.riskFreeFwd t0 (t0 + dt) - env.dividendFwd t0 (t0 + dt) -
      0.5 * vol * vol
    let nu := par.kappa * (par.theta - vol * vol)
    Except.ok
      (x0.1 * Real.exp (mu * dt + vol * dw.1 * sdt),
       x0.2 + nu * dt + vol2 * sdt * (par.rho * dw.1 + sqrhov * dw.2))
  else if d = Discretization.Reflection then
    let vol := Real.sqrt |x0.2|
    let vol2 := par.sigma * vol
    let mu := env.riskFreeFwd t0 (t0 + dt) - env.dividendFwd t0 (t0 + dt) -
      0.5 * vol * vol
    let nu := par.kappa * (par.theta - vol * vol)
    Except.ok
      (x0.1 * Real.exp (mu * dt + vol * dw.1 * sdt),
       vol * vol + nu * dt + vol2 * sdt * (par.rho * dw.1 + sqrhov * dw.2))
  else if d = Discretization.ExactVariance then
    let vol : ℝ := if x0.2 > 0 then Real.sqrt x0.2 else 0
    let mu := env.riskFreeFwd t0 (t0 + dt) - env.dividendFwd t0 (t0 + dt) -
      0.5 * vol * vol
    let nextVar := chiScale par dt *
      env.invNcChiSq (chiDf par) (chiNcp par dt x0.2) 100
        (clampProb env.eps (env.normalCdf dw.2))
    let dy := (mu - par.rho / par.sigma * par.kappa * (par.theta - vol * vol))
        * dt + vol * sqrhov * dw.1 * sdt
    Except.ok
      (x0.1 * Real.exp (dy + par.rho / par.sigma * (nextVar - x0.2)), nextVar)
  else
    Except.error "unknown discretization schema"

/-- A concrete environment used for concrete instances: flat zero forward
curves, a constant Gaussian CDF, a constant quantile inversion, and a
half-unit epsilon. -/
def env0 : HestonEnv where
  riskFreeFwd := fun _ _ => 0
  dividendFwd := fun _ _ => 0
  normalCdf := fun _ => 1 / 2
  invNcChiSq := fun _ _ _ _ => 1
  eps := 1 / 2

/-- A concrete parameter set used for concrete instances. -/
def p0 : HestonParams where
  v0 := 1 / 25
  kappa := 1
  theta := 1 / 25
  sigma := 1 / 5
  rho := -(1 / 2)

/-- A concrete parameter set with zero correlation, so the price-variance
coupling term of the ExactVariance branch vanishes. -/
def pC2 : HestonParams where
  v0 := 1
  kappa := 1
  theta := 0
  sigma := 1
  rho := 0

/-- The ExactVariance price update exactly as the spec words it (section 4.4
steps 6 and 7): `dy` is built from the bare forward drift with no
`-vol^2/2` term, and the next price is `x0.price * exp(dy + (rho/sigma) *
(nextVariance - x0.variance))`.  Stated for comparison against the source
embedding `evolve`, which subtracts `vol^2/2` inside `mu`. -/
def exactPriceSpec (env : HestonEnv) (par : HestonParams) (t0 dt : ℝ)
    (x0 dw : ℝ × ℝ) (nv : ℝ) : ℝ :=
  x0.1 * Real.exp
    (((env.riskFreeFwd t0 (t0 + dt) - env.dividendFwd t0 (t0 + dt)) -
        par.rho / par.sigma * par.kappa *
          (par.theta - (if x0.2 > 0 then Real.sqrt x0.2 else 0) ^ 2)) * dt +
      (if x0.2 > 0 then Real.sqrt x0.2 else 0) *
        Real.sqrt (1 - par.rho * par.rho) * dw.1 * Real.sqrt dt +
      par.rho / par.sigma * (nv - x0.2))

/-- PartialTruncation with a zero time step returns the state unchanged. -/
theorem evolve_pt_zero (env : HestonEnv) (par : HestonParams) (t0 : ℝ)
    (x0 dw : ℝ × ℝ) :
    evolve env par Discretization.PartialTruncation t0 x0 0 dw =
      Except.ok (x0.1, x0.2) := by
  simp [evolve, Discretization.PartialTruncation, Real.sqrt_zero, Real.exp_zero]

/-- FullTruncation with a zero time step returns the state unchanged. -/
theorem evolve_ft_zero (env : HestonEnv) (par : HestonParams) (t0 : ℝ)
    (x0 dw : ℝ × ℝ) :
    evolve env par Discretization.FullTruncation t0 x0 0 dw =
      Except.ok (x0.1, x0.2) := by
  simp [evolve, Discretization.FullTruncation, Discretization.PartialTruncation,
    Real.sqrt_zero, Real.exp_zero]

/-- Reflection with a zero time step keeps the price and returns the
absolute value of the variance. -/
theorem evolve_refl_zero (env : HestonEnv) (par : HestonParams) (t0 : ℝ)
    (x0 dw : ℝ × ℝ) :
    evolve env par Discretization.Reflection t0 x0 0 dw =
      Except.ok (x0.1, |x0.2|) := by
  simp [evolve, Discretization.Reflection, Discretization.PartialTruncation,
    Discretization.FullTruncation, Real.sqrt_zero, Real.exp_zero,
    Real.mul_self_sqrt (abs_nonneg x0.2)]

/-- ExactVariance with a zero time step: the scale factor
`sigma^2*(1-exp(0))/(4*kappa)` collapses to `0` (in this embedding the C++
division by the vanishing `1-exp(0)` is total division), so the returned
variance is `0` and the price picks up the `rho/sigma` coupling term. -/
theorem evolve_ev_zero (env : HestonEnv) (par : HestonParams) (t0 : ℝ)
    (x0 dw : ℝ × ℝ) :
    evolve env par Discretization.ExactVariance t0 x0 0 dw =
      Except.ok (x0.1 * Real.exp (-(par.rho / par.sigma * x0.2)), 0) := by
  simp [evolve, Discretization.ExactVariance, Discretization.PartialTruncation,
    Discretization.FullTruncation, Discretization.Reflection, chiScale,
    Real.sqrt_zero, Real.exp_zero]

/-- C1 (amended): for positive input variance, evolving with a zero time
step returns the state unchanged under PartialTruncation, FullTruncation,
and Reflection; under ExactVariance, however, the returned variance is `0`
(the chi-squared scale factor vanishes with the time step) and the returned
price is `x0.price * exp(-(rho/sigma)*x0.variance)`, not the input state. -/
theorem c1_evolve_dt_zero (env : HestonEnv) (par : HestonParams) (t0 : ℝ)
    (x0 dw : ℝ × ℝ) (h : 0 < x0.2) :
    evolve env par Discretization.PartialTruncation t0 x0 0 dw =
      Except.ok (x0.1, x0.2) ∧
    evolve env par Discretization.FullTruncation t0 x0 0 dw =
      Except.ok (x0.1, x0.2) ∧
    evolve env par Discretization.Reflection t0 x0 0 dw =
      Except.ok (x0.1, x0.2) ∧
    evolve env par Discretization.ExactVariance t0 x0 0 dw =
      Except.ok (x0.1 * Real.exp (-(par.rho / par.sigma * x0.2)), 0) :=
  ⟨evolve_pt_zero env par t0 x0 dw, evolve_ft_zero env par t0 x0 dw,
   by rw [evolve_refl_zero, abs_of_pos h], evolve_ev_zero env par t0 x0 dw⟩

/-- C1 (witness): concrete instantiation of the zero-step identity at state
`(100, 1/25)` under PartialTruncation. -/
theorem c1_evolve_dt_zero_witness :
    (0:ℝ) < 1 / 25 ∧
    evolve env0 p0 Discretization.PartialTruncation 0 (100, 1 / 25) 0 (0, 0) =
      Except.ok (100, 1 / 25) :=
  ⟨by norm_num, (c1_evolve_dt_zero env0 p0 0 (100, 1 / 25) (0, 0) (by norm_num)).1⟩

/-- C1 (counterexample): under ExactVariance with a zero time step and input
variance `1/25 > 0`, the returned variance is `0`, not `1/25`, refuting the
claimed identity for the ExactVariance branch. -/
theorem c1_exact_variance_dt_zero_cex :
    (evolve env0 p0 Discretization.ExactVariance 0 (100, 1 / 25) 0 (0, 0)).map
        Prod.snd = Except.ok 0 ∧
    (0:ℝ) ≠ 1 / 25 :=
  ⟨by rw [evolve_ev_zero]; rfl, by norm_num⟩

/-- C2 (amended): under ExactVariance the price update is
`nextPrice = x0.price * exp(dy + (rho/sigma)*(nextVariance - x0.variance))`
with `dy = (fwdDrift - vol^2/2 - (rho/sigma)*kappa*(theta - vol^2))*dt +
vol*sqrhov*dw0*sdt`: the drift inside `dy` carries the `-vol^2/2`
convexity term (absent from the claim's formula), since the code builds
`dy` from `mu = fwdDrift - 0.5*vol*vol`. -/
theorem c2_exact_variance_price (env : HestonEnv) (par : HestonParams)
    (t0 : ℝ) (x0 : ℝ × ℝ) (dt : ℝ) (dw : ℝ × ℝ) :
    evolve env par Discretization.ExactVariance t0 x0 dt dw =
      Except.ok
        (x0.1 * Real.exp
          (((env.riskFreeFwd t0 (t0 + dt) - env.dividendFwd t0 (t0 + dt) -
              (if x0.2 > 0 then Real.sqrt x0.2 else 0) ^ 2 / 2 -
              par.rho / par.sigma * par.kappa *
                (par.theta - (if x0.2 > 0 then Real.sqrt x0.2 else 0) ^ 2)) * dt +
            (if x0.2 > 0 then Real.sqrt x0.2 else 0) *
              Real.sqrt (1 - par.rho * par.rho) * dw.1 * Real.sqrt dt) +
           par.rho / par.sigma *
             (chiScale par dt *
               env.invNcChiSq (chiDf par) (chiNcp par dt x0.2) 100
                 (clampProb env.eps (env.normalCdf dw.2)) - x0.2)),
         chiScale par dt *
           env.invNcChiSq (chiDf par) (chiNcp par dt x0.2) 100
             (clampProb env.eps (env.normalCdf dw.2))) := by
  simp only [evolve, Discretization.ExactVariance, Discretization.PartialTruncation,
    Discretization.FullTruncation, Discretization.Reflection, Nat.reduceEqDiff,
    reduceIte, Except.ok.injEq, Prod.mk.injEq]
  refine ⟨?_, trivial⟩
  congr 1
  ring_nf

/-- C2 (counterexample): with zero curves, zero correlation, unit sigma and
kappa, state `(1, 1)`, a unit time step, and zero shocks, the code returns
the price `exp(-1/2)` while the claim's formula (no `-vol^2/2` term in `dy`)
predicts price `1` at the code's own next variance `(1 - exp(-1))/4`. -/
theorem c2_price_formula_cex :
    evolve env0 pC2 Discretization.ExactVariance 0 (1, 1) 1 (0, 0) =
      Except.ok (Real.exp (-(1 / 2) : ℝ), (1 - Real.exp (-1)) / 4) ∧
    exactPriceSpec env0 pC2 0 1 (1, 1) (0, 0) ((1 - Real.exp (-1)) / 4) = 1 ∧
    Real.exp (-(1 / 2) : ℝ) ≠ 1 := by
  refine ⟨?_, ?_, ne_of_lt (Real.exp_lt_one_iff.mpr (by norm_num))⟩
  · simp [evolve, Discretization.ExactVariance, Discretization.PartialTruncation,
      Discretization.FullTruncation, Discretization.Reflection, chiScale, chiDf,
      chiNcp, clampProb, env0, pC2, Real.sqrt_one]
    norm_num
  · simp [exactPriceSpec, env0, pC2, Real.sqrt_one]

/-- C3 (amended): whenever `evolve` returns a next state and the input price
is strictly positive, the returned price is strictly positive, in every
discretization branch (the price is always the input price times an
exponential). -/
theorem c3_price_positive (env : HestonEnv) (par : HestonParams) (d : ℕ)
    (t0 : ℝ) (x0 : ℝ × ℝ) (dt : ℝ) (dw : ℝ × ℝ) (st : ℝ × ℝ)
    (hp : 0 < x0.1)
    (hok : evolve env par d t0 x0 dt dw = Except.ok st) : 0 < st.1 := by
  simp only [evolve] at hok
  split_ifs at hok
  all_goals injection hok with h
  all_goals subst h
  all_goals exact mul_pos hp (Real.exp_pos _)

/-- C3 (witness): concrete instantiation at state `(100, 1/25)` under
PartialTruncation with a zero time step. -/
theorem c3_price_positive_witness :
    (0:ℝ) < 100 ∧ (0:ℝ) < (((100 : ℝ), (1 / 25 : ℝ)) : ℝ × ℝ).1 :=
  ⟨by norm_num,
   c3_price_positive env0 p0 Discretization.PartialTruncation 0 (100, 1 / 25) 0
     (0, 0) (100, 1 / 25) (by norm_num)
     (evolve_pt_zero env0 p0 0 (100, 1 / 25) (0, 0))⟩

/-- C3 (counterexample): at the state `(0, 1/25)` the returned price is `0`,
which is not strictly positive, refuting the claim for arbitrary states. -/
theorem c3_zero_price_cex :
    evolve env0 p0 Discretization.PartialTruncation 0 (0, 1 / 25) 0 (0, 0) =
      Except.ok (0, 1 / 25) ∧
    ¬ (0:ℝ) < 0 :=
  ⟨evolve_pt_zero env0 p0 0 (0, 1 / 25) (0, 0), lt_irrefl 0⟩

/-- C4 (amended): for every selector value other than the five defined ones,
`evolve` produces no state and fails with the message
"unknown discretization schema" (the message the claim quotes,
"unsupported discretization scheme", is not the one the code raises). -/
theorem c4_unknown_mode_fails (env : HestonEnv) (par : HestonParams) (d : ℕ)
    (t0 : ℝ) (x0 : ℝ × ℝ) (dt : ℝ) (dw : ℝ × ℝ)
    (_h0 : d ≠ Discretization.Euler) (h1 : d ≠ Discretization.PartialTruncation)
    (h2 : d ≠ Discretization.FullTruncation) (h3 : d ≠ Discretization.Reflection)
    (h4 : d ≠ Discretization.ExactVariance) :
    evolve env par d t0 x0 dt dw =
      Except.error "unknown discretization schema" := by
  simp [evolve, h1, h2, h3, h4]

/-- C4 (witness): the invalid selector value `7` fails with the
"unknown discretization schema" message. -/
theorem c4_unknown_mode_fails_witness :
    (7:ℕ) ≠ Discretization.Euler ∧ (7:ℕ) ≠ Discretization.PartialTruncation ∧
    (7:ℕ) ≠ Discretization.FullTruncation ∧ (7:ℕ) ≠ Discretization.Reflection ∧
    (7:ℕ) ≠ Discretization.ExactVariance ∧
    evolve env0 p0 7 0 (100, 1 / 25) 0 (0, 0) =
      Except.error "unknown discretization schema" :=
  ⟨by decide, by decide, by decide, by decide, by decide,
   c4_unknown_mode_fails env0 p0 7 0 (100, 1 / 25) 0 (0, 0) (by decide)
     (by decide) (by decide) (by decide) (by decide)⟩

/-- C4 (counterexample): on the invalid selector `7` the code fails with
"unknown discretization schema", which differs from the claimed
"unsupported discretization scheme" failure. -/
theorem c4_error_message_cex :
    evolve env0 p0 7 0 (100, 1 / 25) 0 (0, 0) =
      Except.error "unknown discretization schema" ∧
    (Except.error "unknown discretization schema" : Except String (ℝ × ℝ)) ≠
      Except.error "unsupported discretization scheme" := by
  constructor
  · simp [evolve, Discretization.PartialTruncation, Discretization.FullTruncation,
      Discretization.Reflection, Discretization.ExactVariance]
  · intro hcontra
    injection hcontra with h
    exact absurd h (by decide)

/-- C5: for non-negative input variance, the PartialTruncation and
FullTruncation branches of `evolve` produce identical next states, since the
truncated vol then satisfies `vol*vol = x0.variance` and the two
variance-drift terms coincide. -/
theorem c5_pt_ft_agree (env : HestonEnv) (par : HestonParams) (t0 : ℝ)
    (x0 : ℝ × ℝ) (dt : ℝ) (dw : ℝ × ℝ) (h : 0 ≤ x0.2) :
    evolve env par Discretization.PartialTruncation t0 x0 dt dw =
      evolve env par Discretization.FullTruncation t0 x0 dt dw := by
  have hv : (if x0.2 > 0 then Real.sqrt x0.2 else 0) *
      (if x0.2 > 0 then Real.sqrt x0.2 else 0) = x0.2 := by
    by_cases hpos : x0.2 > 0
    · rw [if_pos hpos]; exact Real.mul_self_sqrt hpos.le
    · rw [if_neg hpos, mul_zero]; exact (le_antisymm (not_lt.mp hpos) h).symm
  simp only [evolve, Discretization.PartialTruncation,
    Discretization.FullTruncation, reduceIte]
  rw [hv]
  norm_num

/-- C5 (witness): concrete agreement of the two truncation schemes at state
`(100, 1/25)`, unit time step and shocks `(1, 1)`. -/
theorem c5_pt_ft_agree_witness :
    (0:ℝ) ≤ 1 / 25 ∧
    evolve env0 p0 Discretization.PartialTruncation 0 (100, 1 / 25) 1 (1, 1) =
      evolve env0 p0 Discretization.FullTruncation 0 (100, 1 / 25) 1 (1, 1) :=
  ⟨by norm_num, c5_pt_ft_agree env0 p0 0 (100, 1 / 25) 1 (1, 1) (by norm_num)⟩

/-- C6: `drift` returns the pair
`(fwdRiskFree(t,t) - fwdDividend(t,t) - vol^2/2, kappa*(theta - X))` where
`vol` is `sqrt(variance)` for positive variance, `-sqrt|variance|` under
Reflection for non-positive variance, and `0` otherwise, and `X` is the raw
variance under PartialTruncation and `vol^2` otherwise. -/
theorem c6_drift_formula (env : HestonEnv) (par : HestonParams) (d : ℕ)
    (t : ℝ) (x : ℝ × ℝ) :
    drift env par d t x =
      (env.riskFreeFwd t t - env.dividendFwd t t -
        (if x.2 > 0 then Real.sqrt x.2
         else if d = Discretization.Reflection then -Real.sqrt |x.2| else 0) ^ 2 / 2,
       par.kappa * (par.theta -
        (if d = Discretization.PartialTruncation then x.2
         else (if x.2 > 0 then Real.sqrt x.2
               else if d = Discretization.Reflection then -Real.sqrt |x.2|
               else 0) ^ 2))) := by
  have habs : (if x.2 > 0 then Real.sqrt x.2
      else if d = Discretization.Reflection then -Real.sqrt |x.2| else 0) =
      (if x.2 > 0 then Real.sqrt x.2
       else if d = Discretization.Reflection then -Real.sqrt (-x.2) else 0) := by
    by_cases hp : x.2 > 0
    · rw [if_pos hp, if_pos hp]
    · rw [if_neg hp, if_neg hp, abs_of_nonpos (not_lt.mp hp)]
  rw [habs]
  simp only [drift, pow_two, Prod.mk.injEq]
  exact ⟨by ring, trivial⟩

/-- C7: the probability handed to the non-central chi-squared quantile
inversion in the ExactVariance branch is the Gaussian CDF of the second
shock clamped into `[0, 1)` — values at least `1` map to `1 - eps`,
negative values to `0` — provided the machine epsilon lies in `(0, 1]`;
and the variance returned by `evolve` is the quantile evaluated exactly at
that clamped probability. -/
theorem c7_probability_clamped (env : HestonEnv) (par : HestonParams)
    (t0 : ℝ) (x0 : ℝ × ℝ) (dt : ℝ) (dw : ℝ × ℝ)
    (h0 : 0 < env.eps) (h1 : env.eps ≤ 1) :
    (0 ≤ clampProb env.eps (env.normalCdf dw.2) ∧
      clampProb env.eps (env.normalCdf dw.2) < 1) ∧
    clampProb env.eps (env.normalCdf dw.2) =
      (if 1 ≤ env.normalCdf dw.2 then 1 - env.eps
       else if env.normalCdf dw.2 < 0 then 0 else env.normalCdf dw.2) ∧
    (evolve env par Discretization.ExactVariance t0 x0 dt dw).map Prod.snd =
      Except.ok (chiScale par dt *
        env.invNcChiSq (chiDf par) (chiNcp par dt x0.2) 100
          (clampProb env.eps (env.normalCdf dw.2))) := by
  refine ⟨?_, ?_, ?_⟩
  · unfold clampProb
    split_ifs with ha hb
    · exact ⟨le_refl 0, one_pos⟩
    · constructor
      · linarith
      · linarith
    · exact ⟨not_lt.mp ha, not_le.mp hb⟩
  · unfold clampProb
    split_ifs <;> first | rfl | linarith
  · simp [evolve, Discretization.ExactVariance, Discretization.PartialTruncation,
      Discretization.FullTruncation, Discretization.Reflection, Except.map]

/-- C7 (witness): concrete instantiation with `eps = 1/2` and a constant
Gaussian CDF. -/
theorem c7_probability_clamped_witness :
    0 < env0.eps ∧ env0.eps ≤ 1 ∧
    (0 ≤ clampProb env0.eps (env0.normalCdf 0) ∧
      clampProb env0.eps (env0.normalCdf 0) < 1) :=
  ⟨by norm_num [env0], by norm_num [env0],
   (c7_probability_clamped env0 p0 0 (100, 1 / 25) 1 (0, 0)
     (by norm_num [env0]) (by norm_num [env0])).1⟩

/-- C8: `apply` returns exactly
`(x0.price * exp(dlog-price), x0.variance + dvariance)`, and for a strictly
positive input price the returned price is strictly positive for any real
log-price increment. -/
theorem c8_apply_formula (x0 dx : ℝ × ℝ) :
    HestonProcess.apply x0 dx = (x0.1 * Real.exp dx.1, x0.2 + dx.2) ∧
      (0 < x0.1 → 0 < (HestonProcess.apply x0 dx).1) :=
  ⟨rfl, fun h => mul_pos h (Real.exp_pos _)⟩

/-- C8 (witness): concrete instantiation at state `(2, 3)` and increment
`(5, 7)`. -/
theorem c8_apply_formula_witness :
    (0:ℝ) < 2 ∧ (0:ℝ) < (HestonProcess.apply (2, 3) (5, 7)).1 :=
  ⟨by norm_num, (c8_apply_formula ((2:ℝ), (3:ℝ)) ((5:ℝ), (7:ℝ))).2 (by norm_num)⟩

/-- C9: under Reflection with negative input variance and a zero time step,
`evolve` keeps the price but returns the negated (absolute) variance, so
the zero-step identity does not extend to negative variance. -/
theorem c9_reflection_dt_zero (env : HestonEnv) (par : HestonParams)
    (t0 : ℝ) (x0 dw : ℝ × ℝ) (h : x0.2 < 0) :
    evolve env par Discretization.Reflection t0 x0 0 dw =
      Except.ok (x0.1, -x0.2) := by
  rw [evolve_refl_zero, abs_of_neg h]

/-- C9 (witness): concrete instantiation at state `(100, -(1/25))`. -/
theorem c9_reflection_dt_zero_witness :
    (-(1 / 25) : ℝ) < 0 ∧
    evolve env0 p0 Discretization.Reflection 0 (100, -(1 / 25)) 0 (3, 4) =
      Except.ok (100, -(-(1 / 25) : ℝ)) :=
  ⟨by norm_num,
   c9_reflection_dt_zero env0 p0 0 (100, -(1 / 25)) (3, 4) (by norm_num)⟩

/-- C10: under ExactVariance with `kappa > 0`, `sigma ≠ 0` and a positive
time step, the returned variance is the scale factor
`sigma^2*(1-exp(-kappa*dt))/(4*kappa)` times the quantile-inversion value,
the scale factor is non-negative, and hence a non-negative quantile value
yields a non-negative next variance. -/
theorem c10_exact_variance_nonneg (env : HestonEnv) (par : HestonParams)
    (t0 : ℝ) (x0 : ℝ × ℝ) (dt : ℝ) (dw : ℝ × ℝ)
    (hk : 0 < par.kappa) (_hs : par.sigma ≠ 0) (hdt : 0 < dt) :
    (evolve env par Discretization.ExactVariance t0 x0 dt dw).map Prod.snd =
      Except.ok (chiScale par dt *
        env.invNcChiSq (chiDf par) (chiNcp par dt x0.2) 100
          (clampProb env.eps (env.normalCdf dw.2))) ∧
    0 ≤ chiScale par dt ∧
    (0 ≤ env.invNcChiSq (chiDf par) (chiNcp par dt x0.2) 100
        (clampProb env.eps (env.normalCdf dw.2)) →
      0 ≤ chiScale par dt *
        env.invNcChiSq (chiDf par) (chiNcp par dt x0.2) 100
          (clampProb env.eps (env.normalCdf dw.2))) := by
  have hscale : 0 ≤ chiScale par dt := by
    unfold chiScale
    apply div_nonneg
    · apply mul_nonneg (mul_self_nonneg par.sigma)
      have hle : Real.exp (-(par.kappa * dt)) ≤ 1 :=
        Real.exp_le_one_iff.mpr (by nlinarith)
      linarith
    · linarith
  refine ⟨?_, hscale, fun hq => mul_nonneg hscale hq⟩
  simp [evolve, Discretization.ExactVariance, Discretization.PartialTruncation,
    Discretization.FullTruncation, Discretization.Reflection, Except.map]

/-- C10 (witness): concrete instantiation — the scale factor is
non-negative at `kappa = 1`, `sigma = 1/5`, unit time step. -/
theorem c10_exact_variance_nonneg_witness :
    0 < p0.kappa ∧ p0.sigma ≠ 0 ∧ (0:ℝ) < 1 ∧ 0 ≤ chiScale p0 1 :=
  ⟨by norm_num [p0], by norm_num [p0], by norm_num,
   (c10_exact_variance_nonneg env0 p0 0 (100, 1 / 25) 1 (0, 0)
     (by norm_num [p0]) (by norm_num [p0]) (by norm_num)).2.1⟩

end HestonProcess
